import Mathlib

/-!
Verification of the Web-Crawler collection scripts (Go sources:
`news_crawler.go` (NewsAPI), `gdelt_crawler.go` (GDELT), a Guardian client and
an X/Twitter client) against their natural-language specification.

Shallow embedding conventions:
* Go strings are byte sequences; where byte-level behavior matters (the
  500-byte preview truncation, substring claims about error messages, URL
  percent-encoding) we model them as `List Nat` of UTF-8 bytes, produced from
  Lean string literals by `strBytes`.
* Go `int` is modelled as `Int`; a Go slice expression `l[:n]` panics for
  `n < 0` or `n > len l`, modelled by an `Option` result (`none` = panic).
* Go `map[string]int` is modelled as an association list `List (String × Int)`
  whose entry order is arbitrary (Go map iteration order is unspecified);
  a map built by the code always has pairwise-distinct keys.
* `sort.Slice(kvList, less)` with `less i j = kv[i].Value > kv[j].Value` is
  modelled by `List.insertionSort` with the total relation `b.Value ≤ a.Value`;
  the Go sort is unstable and map order is random, so any sorted permutation
  is a faithful refinement of the source's behavior.
* The HTTP transport and `json.Unmarshal` are outside the program text; each
  client's post-request phase is embedded as a pure pipeline taking the
  received `HttpResponse` and the decode outcome as inputs, and additionally
  reporting whether the decode result was inspected at all (`decodeAttempted`),
  which captures the "short-circuit before JSON decoding" ordering.
-/

/-- UTF-8 bytes of a Lean string, matching Go's byte view of the same literal
(`String.utf8EncodeChar` is the reference UTF-8 encoder). -/
def strBytes (s : String) : List Nat :=
  (s.data.flatMap String.utf8EncodeChar).map UInt8.toNat

/-- Decimal rendering of a Go `int` as bytes, matching `fmt.Sprintf("%d", n)`. -/
def intBytes (i : Int) : List Nat := strBytes i.repr

/-- Decimal rendering of a natural number as bytes (HTTP status codes). -/
def natBytes (n : Nat) : List Nat := strBytes (Nat.repr n)

/-- `needle` occurs contiguously inside `haystack`. -/
def bytesContain (needle haystack : List Nat) : Prop :=
  ∃ s t, haystack = s ++ needle ++ t

/-- `KeyValue` from the Go sources: auxiliary pair used to sort maps. -/
structure KeyValue where
  Key : String
  Value : Int
deriving DecidableEq, Repr

/-- One `m[v]++` step on the association-list model of a Go `map[string]int`:
increment the entry for `v`, inserting it with count 1 when absent (a Go map
read of a missing key yields the zero value 0). -/
def incr : List (String × Int) → String → List (String × Int)
  | [], v => [(v, 1)]
  | (k, c) :: rest, v =>
      if k = v then (k, c + 1) :: rest else (k, c) :: incr rest v

/-- The frequency-table construction loop shared by `ExplorarDatosNewsAPI`,
`ExplorarDatos` (GDELT) and `ExplorarDatosGuardian`:
`for _, art := range arts { m[field(art)]++ }`. -/
def contarFrecuencias (vals : List String) : List (String × Int) :=
  vals.foldl incr []

/-- Sum of the counts stored in a frequency table. -/
def sumCounts (m : List (String × Int)) : Int :=
  (m.map Prod.snd).sum

/-- The ordering realized by `sort.Slice` with the comparator
`kvList[i].Value > kvList[j].Value` in every `getTopN` copy: the output is
arranged with counts descending. -/
def kvRel (a b : KeyValue) : Prop := b.Value ≤ a.Value

instance : DecidableRel kvRel := fun a b => Int.decLe b.Value a.Value

instance : IsTotal KeyValue kvRel := ⟨fun a b => le_total b.Value a.Value⟩

instance : IsTrans KeyValue kvRel := ⟨fun _ _ _ h1 h2 => le_trans h2 h1⟩

/-- Go slice expression `l[:n]` on a `[]KeyValue`: panics (`none`) unless
`0 ≤ n ≤ len l`. -/
def goSliceTo (l : List KeyValue) (n : Int) : Option (List KeyValue) :=
  if 0 ≤ n ∧ n ≤ (l.length : Int) then some (l.take n.toNat) else none

/-- The clamping step `if n > len(kvList) { n = len(kvList) }` of `getTopN`. -/
def clampIndex (len n : Int) : Int := if len < n then len else n

/-- `getTopN` from the Go sources (identical in `news_crawler.go`,
`gdelt_crawler.go` and the Guardian file): copy the map into a `[]KeyValue`,
sort by count descending, clamp `n` down to the list length, slice. -/
def getTopN (m : List (String × Int)) (n : Int) : Option (List KeyValue) :=
  let kvList := m.map (fun p => KeyValue.mk p.1 p.2)
  let sorted := kvList.insertionSort kvRel
  goSliceTo sorted (clampIndex (sorted.length : Int) n)

/-- State-passing rendering of a `getTopN` call: the Go function only reads
its map argument (the `range` loop copies entries into a fresh slice and no
statement assigns through `m`), so the map component of the state after the
call is the map that went in. -/
def getTopNRun (m : List (String × Int)) (n : Int) :
    List (String × Int) × Option (List KeyValue) :=
  let kvList := m.foldl (fun acc p => acc ++ [KeyValue.mk p.1 p.2]) []
  let sorted := kvList.insertionSort kvRel
  (m, goSliceTo sorted (clampIndex (sorted.length : Int) n))

/-- A record carrying one categorical field, as in the spec's concrete
scenario `[{src:"A"}, ...]`. -/
structure SrcRecord where
  src : String
deriving DecidableEq, Repr

/-- The spec's `topN(records, src, n)`: build the frequency table over the
`src` field by one pass, then rank with `getTopN`. -/
def topNSrc (records : List SrcRecord) (n : Int) : Option (List KeyValue) :=
  getTopN (contarFrecuencias (records.map SrcRecord.src)) n

/-- Outcome of a Go `(*T, error)` return: either a value or an error whose
message is a byte string. -/
inductive GoResult (α : Type) where
  | ok (val : α)
  | err (msg : List Nat)
deriving DecidableEq, Repr

/-- `NewsAPIArticle` from `news_crawler.go`; `publishedAt` (a `time.Time`)
is kept as its textual form, it plays no role in any claim. -/
structure NewsAPIArticle where
  sourceName : String
  author : String
  title : String
  url : String
  publishedAt : String
  content : String
deriving DecidableEq, Repr

/-- `NewsAPIResponse` from `news_crawler.go`. -/
structure NewsAPIResponse where
  status : String
  totalResults : Int
  articles : List NewsAPIArticle
deriving DecidableEq, Repr

/-- `GDELTArticle` from `gdelt_crawler.go`. -/
structure GDELTArticle where
  url : String
  urlmobile : String
  title : String
  seendate : String
  socialimage : String
  domain : String
  language : String
  sourcecountry : String
deriving DecidableEq, Repr

/-- `GDELTResponse` from `gdelt_crawler.go`. -/
structure GDELTResponse where
  articles : List GDELTArticle
deriving DecidableEq, Repr

/-- `GuardianArticle` from the Guardian client file. -/
structure GuardianArticle where
  id : String
  type : String
  sectionName : String
  webTitle : String
  webUrl : String
  webPublicationDate : String
deriving DecidableEq, Repr

/-- The anonymous inner `response` object of `GuardianResponse`. -/
structure GuardianInner where
  status : String
  total : Int
  pageSize : Int
  currentPage : Int
  pages : Int
  results : List GuardianArticle
deriving DecidableEq, Repr

/-- `GuardianResponse` from the Guardian client file. -/
structure GuardianResponse where
  response : GuardianInner
deriving DecidableEq, Repr

/-- `PublicMetrics` from the X client file. -/
structure PublicMetrics where
  retweetCount : Int
  likeCount : Int
  replyCount : Int
  quoteCount : Int
deriving DecidableEq, Repr

/-- `Tweet` from the X client file (`createdAt` kept textual). -/
structure Tweet where
  id : String
  text : String
  createdAt : String
  publicMetrics : PublicMetrics
deriving DecidableEq, Repr

/-- `XMeta` from the X client file. -/
structure XMeta where
  newestId : String
  oldestId : String
  resultCount : Int
  nextToken : String
deriving DecidableEq, Repr

/-- `XResponse` from the X client file. -/
structure XResponse where
  data : List Tweet
  meta : XMeta
deriving DecidableEq, Repr

/-- An HTTP response as seen after `io.ReadAll` succeeded: the status code
and the raw body bytes. -/
structure HttpResponse where
  statusCode : Nat
  body : List Nat
deriving DecidableEq, Repr

/-- The body-preview computation shared by every decode-failure branch:
`preview := string(body); if len(preview) > 500 { preview = preview[:500] + "..." }`.
Lengths and slicing are in bytes, exactly as Go's `len` and `[:500]`. -/
def previewOf (body : List Nat) : List Nat :=
  if body.length > 500 then body.take 500 ++ strBytes "..." else body

/-- Post-request phase of `BuscarArticulos` in `news_crawler.go` (NewsAPI),
from the point where the body has been read. `decoded` is the outcome of
`json.Unmarshal(body, &apiResp)`. The Boolean records whether the decode
outcome was inspected. Note: this client never examines `resp.StatusCode`;
it relies solely on the `status` field embedded in the JSON body. -/
def newsAPIpipeline (resp : HttpResponse) (decoded : GoResult NewsAPIResponse) :
    Bool × GoResult NewsAPIResponse :=
  match decoded with
  | .err e =>
      (true, .err (strBytes "error parseando JSON: " ++ e ++
        strBytes ". \nRespuesta recibida (Inicio):\n" ++ previewOf resp.body))
  | .ok apiResp =>
      if apiResp.status ≠ "ok" then
        (true, .err (strBytes "error de NewsAPI (Status: " ++
          strBytes apiResp.status ++
          strBytes "). El cuerpo puede tener más detalles: " ++ resp.body))
      else
        (true, .ok apiResp)

/-- Post-request phase of `BuscarArticulosMultiLang` in `gdelt_crawler.go`:
the `resp.StatusCode != http.StatusOK` guard runs before `json.Unmarshal`. -/
def gdeltPipeline (resp : HttpResponse) (decoded : GoResult GDELTResponse) :
    Bool × GoResult GDELTResponse :=
  if resp.statusCode ≠ 200 then
    (false, .err (strBytes "error HTTP: status code " ++
      natBytes resp.statusCode ++ strBytes ", body: " ++ resp.body))
  else
    match decoded with
    | .err e =>
        (true, .err (strBytes "error parseando JSON: " ++ e ++
          strBytes ". \nRespuesta recibida (Inicio):\n" ++ previewOf resp.body))
    | .ok r => (true, .ok r)

/-- Post-request phase of `BuscarArticulos` in the Guardian client: HTTP
status guard, then decode, then the embedded `response.status` check. -/
def guardianPipeline (resp : HttpResponse) (decoded : GoResult GuardianResponse) :
    Bool × GoResult GuardianResponse :=
  if resp.statusCode ≠ 200 then
    (false, .err (strBytes "error HTTP: status code " ++
      natBytes resp.statusCode ++ strBytes ", body: " ++ resp.body))
  else
    match decoded with
    | .err e =>
        (true, .err (strBytes "error parseando JSON: " ++ e ++
          strBytes ". Respuesta recibida (Inicio):\n" ++ previewOf resp.body))
    | .ok apiResp =>
        if apiResp.response.status ≠ "ok" then
          (true, .err (strBytes "error de Guardian API (Status: " ++
            strBytes apiResp.response.status ++ strBytes ")."))
        else
          (true, .ok apiResp)

/-- Post-request phase of `BuscarTweets` in the X client: HTTP status guard,
then decode; no embedded-status check exists in this schema. -/
def xPipeline (resp : HttpResponse) (decoded : GoResult XResponse) :
    Bool × GoResult XResponse :=
  if resp.statusCode ≠ 200 then
    (false, .err (strBytes "error HTTP: status code " ++
      natBytes resp.statusCode ++ strBytes ". Respuesta de X:\n" ++ resp.body))
  else
    match decoded with
    | .err e =>
        (true, .err (strBytes "error parseando JSON: " ++ e ++
          strBytes ". Respuesta recibida:\n" ++ previewOf resp.body))
    | .ok r => (true, .ok r)

/-- The frequency table over article sources built inside
`ExplorarDatosNewsAPI`: `fuentes[art.Source.Name]++` over all articles. -/
def explorarFuentes (arts : List NewsAPIArticle) : List (String × Int) :=
  contarFrecuencias (arts.map NewsAPIArticle.sourceName)

/-- Bytes Go's `url.QueryEscape` leaves unescaped: ALPHA / DIGIT / `-._~`. -/
def isUnreservedByte (b : Nat) : Bool :=
  (65 ≤ b && b ≤ 90) || (97 ≤ b && b ≤ 122) || (48 ≤ b && b ≤ 57) ||
  b == 45 || b == 95 || b == 46 || b == 126

/-- Uppercase hexadecimal digit byte, as `url` package escaping emits. -/
def hexUpper (n : Nat) : Nat := if n < 10 then 48 + n else 55 + n

/-- Escape one byte the way `url.QueryEscape` does inside a query component:
unreserved bytes pass through, a space becomes `+`, anything else `%XX`. -/
def queryEscapeByte (b : Nat) : List Nat :=
  if isUnreservedByte b then [b]
  else if b == 32 then [43]
  else [37, hexUpper (b / 16 % 16), hexUpper (b % 16)]

/-- `url.QueryEscape` over a byte string. -/
def queryEscape (s : List Nat) : List Nat := s.flatMap queryEscapeByte

/-- Byte-wise lexicographic comparison, as `sort.Strings` orders keys. -/
def bytesLe : List Nat → List Nat → Bool
  | [], _ => true
  | _ :: _, [] => false
  | a :: as, b :: bs => if a < b then true else if b < a then false else bytesLe as bs

/-- Key order used by `url.Values.Encode` (keys sorted lexicographically). -/
def keyLe (a b : List Nat × List Nat) : Prop := bytesLe a.1 b.1 = true

instance : DecidableRel keyLe := fun a b => instDecidableEqBool (bytesLe a.1 b.1) true

/-- Join byte strings with a separator byte sequence. -/
def joinBytes (sep : List Nat) : List (List Nat) → List Nat
  | [] => []
  | [x] => x
  | x :: y :: ys => x ++ sep ++ joinBytes sep (y :: ys)

/-- `url.Values.Encode`: sort the key/value pairs by key, escape each key and
value, join as `k=v` pairs with `&`. -/
def urlValuesEncode (params : List (List Nat × List Nat)) : List Nat :=
  joinBytes [38]
    ((params.insertionSort keyLe).map fun p => queryEscape p.1 ++ [61] ++ queryEscape p.2)

/-- URL construction of `BuscarArticulos` in `news_crawler.go`: the `q`
parameter is the hard-coded `finalQuery` (the `queryRaw` argument is never
read), the remaining parameters come from the other arguments, and
`fullURL = BaseURL + "?" + params.Encode()`. -/
def newsBuildURL (queryRaw idiomasCSV fechaInicio fechaFin : String)
    (pageSize : Int) : List Nat :=
  let finalQuery := "\"Universidad de Antioquia\" OR UdeA"
  let params : List (List Nat × List Nat) :=
    [(strBytes "q", strBytes finalQuery),
     (strBytes "language", strBytes idiomasCSV),
     (strBytes "sortBy", strBytes "publishedAt"),
     (strBytes "pageSize", intBytes pageSize),
     (strBytes "from", strBytes fechaInicio),
     (strBytes "to", strBytes fechaFin)]
  strBytes "https://newsapi.org/v2/everything" ++ strBytes "?" ++
    urlValuesEncode params

/-- One `m[v]++` step adds exactly 1 to the total of the counts. -/
lemma sumCounts_incr (m : List (String × Int)) (v : String) :
    sumCounts (incr m v) = sumCounts m + 1 := by
  induction m with
  | nil => simp [incr, sumCounts]
  | cons p rest ih =>
      obtain ⟨k, c⟩ := p
      by_cases hk : k = v
      · simp [incr, hk, sumCounts]
        ring
      · simp [incr, hk, sumCounts] at ih ⊢
        omega

/-- Folding the counting loop over `vals` adds `vals.length` to the total. -/
lemma sumCounts_foldl_incr (vals : List String) :
    ∀ m : List (String × Int),
      sumCounts (vals.foldl incr m) = sumCounts m + vals.length := by
  induction vals with
  | nil => intro m; simp
  | cons v rest ih =>
      intro m
      simp only [List.foldl_cons, ih (incr m v), sumCounts_incr, List.length_cons]
      push_cast
      ring

/-- Total of a fresh frequency table = number of records counted into it. -/
lemma sumCounts_contarFrecuencias (vals : List String) :
    sumCounts (contarFrecuencias vals) = vals.length := by
  have h := sumCounts_foldl_incr vals []
  simpa [contarFrecuencias, sumCounts] using h

/-- For `n ≥ 0`, `getTopN` returns the first `n` entries (or all of them if
fewer) of the descending-sorted entry list; in particular it never panics. -/
lemma getTopN_some (m : List (String × Int)) (n : Int) (h : 0 ≤ n) :
    getTopN m n =
      some (((m.map fun p => KeyValue.mk p.1 p.2).insertionSort kvRel).take n.toNat) := by
  unfold getTopN goSliceTo clampIndex
  simp only []
  set L := (m.map fun p => KeyValue.mk p.1 p.2).insertionSort kvRel with hL
  by_cases hc : (L.length : Int) < n
  · rw [if_pos hc]
    rw [if_pos ⟨Int.natCast_nonneg _, le_refl _⟩]
    have h1 : ((L.length : Int)).toNat = L.length := Int.toNat_natCast _
    have h2 : L.length ≤ n.toNat := by omega
    rw [h1, List.take_length, List.take_of_length_le h2]
  · rw [if_neg hc]
    push_neg at hc
    rw [if_pos ⟨h, hc⟩]

/-- The `range`-loop copy `kvList = append(kvList, KeyValue{k, v})` builds
exactly the map of the entries. -/
lemma foldl_append_eq_map (m : List (String × Int)) :
    m.foldl (fun acc p => acc ++ [KeyValue.mk p.1 p.2]) [] =
      m.map fun p => KeyValue.mk p.1 p.2 := by
  suffices h : ∀ acc : List KeyValue,
      m.foldl (fun acc p => acc ++ [KeyValue.mk p.1 p.2]) acc =
        acc ++ m.map fun p => KeyValue.mk p.1 p.2 by
    simpa using h []
  induction m with
  | nil => intro acc; simp
  | cons p rest ih => intro acc; simp [ih]

/-- A byte string starting with `needle` contains `needle`. -/
lemma bytesContain_head (needle r b : List Nat) :
    bytesContain needle ((needle ++ r) ++ b) :=
  ⟨[], r ++ b, by simp⟩

/-- A byte string whose second component starts with `needle` contains it. -/
lemma bytesContain_mid (a needle t : List Nat) :
    bytesContain needle (a ++ (needle ++ t)) :=
  ⟨a, t, by simp⟩

/-- Claim C2 fails on the code: the counting loop increments the entry for
the extracted field value unconditionally, so a record with an empty source
name is still counted (under the empty-string key). With one such record the
table's total is 1 while the number of records with a non-empty field value
is 0. -/
theorem claim_c2_counterexample :
    sumCounts (explorarFuentes [⟨"", "a", "t", "u", "d", "c"⟩]) = 1 ∧
    (([(⟨"", "a", "t", "u", "d", "c"⟩ : NewsAPIArticle)].filter
        fun a => a.sourceName != "").length : Int) = 0 ∧
    sumCounts (explorarFuentes [⟨"", "a", "t", "u", "d", "c"⟩]) ≠
      (([(⟨"", "a", "t", "u", "d", "c"⟩ : NewsAPIArticle)].filter
        fun a => a.sourceName != "").length : Int) := by
  refine ⟨by decide, by decide, by decide⟩

/-- Claim C2 (amended): for every finite sequence of records, the sum of all
counts in the Frequency Table built from it equals the total number of
records — every record is counted, those with an empty field value under
the empty-string key. -/
theorem claim_c2_amended :
    (∀ vals : List String, sumCounts (contarFrecuencias vals) = vals.length) ∧
    ∀ arts : List NewsAPIArticle,
      sumCounts (explorarFuentes arts) = arts.length := by
  constructor
  · exact sumCounts_contarFrecuencias
  · intro arts
    simp [explorarFuentes, sumCounts_contarFrecuencias]

/-- Claim C3: on the record sequence `[A, B, A, C, A, B]` (by `src` field),
top-2 is exactly `[("A", 3), ("B", 2)]` in that order. -/
theorem claim_c3 :
    topNSrc [⟨"A"⟩, ⟨"B"⟩, ⟨"A"⟩, ⟨"C"⟩, ⟨"A"⟩, ⟨"B"⟩] 2 =
      some [⟨"A", 3⟩, ⟨"B", 2⟩] := by decide

/-- The concrete top-2 of claim C3 does not depend on the (unspecified) Go
map iteration order: every permutation of the frequency-table entries sorts
to the same answer, because the three counts are pairwise distinct. -/
lemma topN_concrete_order_robust :
    ∀ p ∈ ([[("A", 3), ("B", 2), ("C", 1)], [("A", 3), ("C", 1), ("B", 2)],
        [("B", 2), ("A", 3), ("C", 1)], [("B", 2), ("C", 1), ("A", 3)],
        [("C", 1), ("A", 3), ("B", 2)], [("C", 1), ("B", 2), ("A", 3)]] :
        List (List (String × Int))),
      getTopN p 2 = some [⟨"A", 3⟩, ⟨"B", 2⟩] := by decide

/-- Claim C4: for every frequency map and every `n ≥ 0`, `getTopN` returns a
sequence whose counts are non-increasing from the first entry to the last. -/
theorem claim_c4 (m : List (String × Int)) (n : Int) (h : 0 ≤ n) :
    ∃ l, getTopN m n = some l ∧ l.Pairwise fun a b => b.Value ≤ a.Value := by
  refine ⟨_, getTopN_some m n h, ?_⟩
  have hs : List.Sorted kvRel
      ((m.map fun p => KeyValue.mk p.1 p.2).insertionSort kvRel) :=
    List.sorted_insertionSort kvRel _
  exact List.Pairwise.sublist (List.take_sublist _ _) hs

theorem claim_c4_witness :
    (0 : Int) ≤ 2 ∧ ∃ l, getTopN [("x", 1), ("y", 5)] 2 = some l ∧
      l.Pairwise fun a b => b.Value ≤ a.Value :=
  ⟨by decide, claim_c4 [("x", 1), ("y", 5)] 2 (by decide)⟩

/-- Claim C5: for every frequency map with pairwise-distinct keys (the Go
map invariant) and every `n ≥ 0`, the result of `getTopN` has length
`min n (number of distinct keys)`; an empty map gives `[]` for any `n`, and
`n = 0` gives `[]` for any map — no padding, no panic. -/
theorem claim_c5 (m : List (String × Int)) (n : Int) (h1 : 0 ≤ n)
    (h2 : (m.map Prod.fst).Nodup) :
    (∃ l, getTopN m n = some l ∧
      l.length = min n.toNat (m.map Prod.fst).dedup.length) ∧
    getTopN m 0 = some [] ∧ getTopN ([] : List (String × Int)) n = some [] := by
  refine ⟨⟨_, getTopN_some m n h1, ?_⟩, ?_, ?_⟩
  · rw [List.dedup_eq_self.mpr h2, List.length_take,
      List.length_insertionSort, List.length_map, List.length_map]
  · rw [getTopN_some m 0 (le_refl 0)]
    simp
  · rw [getTopN_some [] n h1]
    simp

theorem claim_c5_witness :
    ((0 : Int) ≤ 5 ∧ ((([("a", 2), ("b", 7)] : List (String × Int)).map
        Prod.fst).Nodup)) ∧
    ((∃ l, getTopN [("a", 2), ("b", 7)] 5 = some l ∧
        l.length = min (5 : Int).toNat
          ((([("a", 2), ("b", 7)] : List (String × Int)).map
            Prod.fst).dedup.length)) ∧
      getTopN [("a", 2), ("b", 7)] 0 = some [] ∧
      getTopN ([] : List (String × Int)) 5 = some []) :=
  ⟨⟨by decide, by decide⟩,
    claim_c5 [("a", 2), ("b", 7)] 5 (by decide) (by decide)⟩

/-- Claim C8: `getTopN` is free of side effects on its map argument — in the
state-passing rendering of a call, the map after the call is exactly the map
before it, and the returned ranking is the pure `getTopN` value. -/
theorem claim_c8 (m : List (String × Int)) (n : Int) :
    (getTopNRun m n).1 = m ∧ (getTopNRun m n).2 = getTopN m n := by
  constructor
  · rfl
  · simp only [getTopNRun, getTopN, foldl_append_eq_map]

/-- Claim C10: for `n ≥ 0` the clamped slice bound of `getTopN` satisfies
`0 ≤ n' ≤ len(kvList)`, so the slice `kvList[:n']` is in bounds and the
function cannot panic (returns `some`). -/
theorem claim_c10 (m : List (String × Int)) (n : Int) (h : 0 ≤ n) :
    (0 ≤ clampIndex
        (((m.map fun p => KeyValue.mk p.1 p.2).insertionSort kvRel).length : Int) n ∧
      clampIndex
        (((m.map fun p => KeyValue.mk p.1 p.2).insertionSort kvRel).length : Int) n ≤
        (((m.map fun p => KeyValue.mk p.1 p.2).insertionSort kvRel).length : Int)) ∧
    ∃ l, getTopN m n = some l := by
  constructor
  · unfold clampIndex
    by_cases hc :
        ((((m.map fun p => KeyValue.mk p.1 p.2).insertionSort kvRel).length : Nat) : Int) < n
    · rw [if_pos hc]
      exact ⟨Int.natCast_nonneg _, le_refl _⟩
    · rw [if_neg hc]
      push_neg at hc
      exact ⟨h, hc⟩
  · exact ⟨_, getTopN_some m n h⟩

theorem claim_c10_witness :
    (0 : Int) ≤ 7 ∧
    ((0 ≤ clampIndex
        ((([("k", 1)].map fun p => KeyValue.mk p.1 p.2).insertionSort kvRel).length : Int) 7 ∧
      clampIndex
        ((([("k", 1)].map fun p => KeyValue.mk p.1 p.2).insertionSort kvRel).length : Int) 7 ≤
        ((([("k", 1)].map fun p => KeyValue.mk p.1 p.2).insertionSort kvRel).length : Int)) ∧
    ∃ l, getTopN [("k", 1)] 7 = some l) :=
  ⟨by decide, claim_c10 [("k", 1)] 7 (by decide)⟩

/-- Claim C1 fails on the code for the NewsAPI client: `BuscarArticulos` in
`news_crawler.go` never inspects `resp.StatusCode`. On an HTTP 500 response
whose body decodes with embedded status "ok", the decode outcome is
consumed (first component `true`) and the call returns the response with no
error at all — no short-circuit, no status code in any message. -/
theorem claim_c1_counterexample :
    (newsAPIpipeline ⟨500, strBytes "irrelevant"⟩
      (GoResult.ok ⟨"ok", 0, []⟩)).1 = true ∧
    (newsAPIpipeline ⟨500, strBytes "irrelevant"⟩
      (GoResult.ok ⟨"ok", 0, []⟩)).2 = GoResult.ok ⟨"ok", 0, []⟩ :=
  ⟨rfl, rfl⟩

/-- Claim C1 (amended): the GDELT, Guardian and X clients return a fatal
error on every non-2xx HTTP status, before the JSON decode outcome is
consumed, with the numeric status code contained in the message; the NewsAPI
client performs no HTTP status check and always proceeds to JSON decoding,
relying solely on the status embedded in the body. -/
theorem claim_c1_amended (resp : HttpResponse)
    (dG : GoResult GDELTResponse) (dGu : GoResult GuardianResponse)
    (dX : GoResult XResponse) (dN : GoResult NewsAPIResponse)
    (h : resp.statusCode < 200 ∨ 300 ≤ resp.statusCode) :
    ((gdeltPipeline resp dG).1 = false ∧
      ∃ msg, (gdeltPipeline resp dG).2 = GoResult.err msg ∧
        bytesContain (natBytes resp.statusCode) msg) ∧
    ((guardianPipeline resp dGu).1 = false ∧
      ∃ msg, (guardianPipeline resp dGu).2 = GoResult.err msg ∧
        bytesContain (natBytes resp.statusCode) msg) ∧
    ((xPipeline resp dX).1 = false ∧
      ∃ msg, (xPipeline resp dX).2 = GoResult.err msg ∧
        bytesContain (natBytes resp.statusCode) msg) ∧
    (newsAPIpipeline resp dN).1 = true := by
  have hne : resp.statusCode ≠ 200 := by omega
  refine ⟨?_, ?_, ?_, ?_⟩
  · unfold gdeltPipeline
    rw [if_pos hne]
    refine ⟨rfl, _, rfl, ?_⟩
    exact ⟨strBytes "error HTTP: status code ",
      strBytes ", body: " ++ resp.body, by simp⟩
  · unfold guardianPipeline
    rw [if_pos hne]
    refine ⟨rfl, _, rfl, ?_⟩
    exact ⟨strBytes "error HTTP: status code ",
      strBytes ", body: " ++ resp.body, by simp⟩
  · unfold xPipeline
    rw [if_pos hne]
    refine ⟨rfl, _, rfl, ?_⟩
    exact ⟨strBytes "error HTTP: status code ",
      strBytes ". Respuesta de X:\n" ++ resp.body, by simp⟩
  · unfold newsAPIpipeline
    cases dN with
    | err e => rfl
    | ok r =>
        dsimp only
        by_cases hs : r.status ≠ "ok"
        · rw [if_pos hs]
        · rw [if_neg hs]

theorem claim_c1_witness :
    ((500 < 200 ∨ 300 ≤ 500) ∧ True) ∧
    (((gdeltPipeline ⟨500, strBytes "b"⟩ (GoResult.err (strBytes "x"))).1 = false ∧
      ∃ msg, (gdeltPipeline ⟨500, strBytes "b"⟩ (GoResult.err (strBytes "x"))).2 =
          GoResult.err msg ∧ bytesContain (natBytes 500) msg) ∧
    ((guardianPipeline ⟨500, strBytes "b"⟩ (GoResult.err (strBytes "x"))).1 = false ∧
      ∃ msg, (guardianPipeline ⟨500, strBytes "b"⟩ (GoResult.err (strBytes "x"))).2 =
          GoResult.err msg ∧ bytesContain (natBytes 500) msg) ∧
    ((xPipeline ⟨500, strBytes "b"⟩ (GoResult.err (strBytes "x"))).1 = false ∧
      ∃ msg, (xPipeline ⟨500, strBytes "b"⟩ (GoResult.err (strBytes "x"))).2 =
          GoResult.err msg ∧ bytesContain (natBytes 500) msg) ∧
    (newsAPIpipeline ⟨500, strBytes "b"⟩ (GoResult.ok ⟨"ok", 0, []⟩)).1 = true) :=
  ⟨⟨by decide, trivial⟩,
    claim_c1_amended ⟨500, strBytes "b"⟩ (GoResult.err (strBytes "x"))
      (GoResult.err (strBytes "x")) (GoResult.err (strBytes "x"))
      (GoResult.ok ⟨"ok", 0, []⟩) (by decide)⟩

/-- Splitting the fixed prefix of the NewsAPI embedded-status error text. -/
lemma newsErrPrefix_split :
    strBytes "error de NewsAPI (Status: " =
      strBytes "error" ++ strBytes " de NewsAPI (Status: " := by decide

/-- Splitting the fixed prefix of the Guardian embedded-status error text. -/
lemma guardianErrPrefix_split :
    strBytes "error de Guardian API (Status: " =
      strBytes "error" ++ strBytes " de Guardian API (Status: " := by decide

/-- Claim C6: when the decoded payload carries an embedded status other than
"ok", the NewsAPI and Guardian clients return a fatal error whose message
contains the word "error", and no response value is returned at all. -/
theorem claim_c6 (resp : HttpResponse) (rN : NewsAPIResponse)
    (rG : GuardianResponse) (hN : rN.status ≠ "ok")
    (hG : rG.response.status ≠ "ok") (hSC : resp.statusCode = 200) :
    ((∃ msg, (newsAPIpipeline resp (GoResult.ok rN)).2 = GoResult.err msg ∧
        bytesContain (strBytes "error") msg) ∧
      ∀ r, (newsAPIpipeline resp (GoResult.ok rN)).2 ≠ GoResult.ok r) ∧
    ((∃ msg, (guardianPipeline resp (GoResult.ok rG)).2 = GoResult.err msg ∧
        bytesContain (strBytes "error") msg) ∧
      ∀ r, (guardianPipeline resp (GoResult.ok rG)).2 ≠ GoResult.ok r) := by
  have hnews : newsAPIpipeline resp (GoResult.ok rN) =
      (true, GoResult.err (strBytes "error de NewsAPI (Status: " ++
        strBytes rN.status ++
        strBytes "). El cuerpo puede tener más detalles: " ++ resp.body)) := by
    unfold newsAPIpipeline
    dsimp only
    rw [if_pos hN]
  have hguard : guardianPipeline resp (GoResult.ok rG) =
      (true, GoResult.err (strBytes "error de Guardian API (Status: " ++
        strBytes rG.response.status ++ strBytes ").")) := by
    unfold guardianPipeline
    rw [if_neg (by omega : ¬ resp.statusCode ≠ 200)]
    dsimp only
    rw [if_pos hG]
  refine ⟨⟨⟨_, by rw [hnews], ?_⟩, ?_⟩, ⟨_, by rw [hguard], ?_⟩, ?_⟩
  · rw [newsErrPrefix_split]
    exact ⟨[], strBytes " de NewsAPI (Status: " ++ strBytes rN.status ++
      strBytes "). El cuerpo puede tener más detalles: " ++ resp.body, by simp⟩
  · intro r
    rw [hnews]
    intro hcontra
    exact GoResult.noConfusion hcontra
  · rw [guardianErrPrefix_split]
    exact ⟨[], strBytes " de Guardian API (Status: " ++
      strBytes rG.response.status ++ strBytes ").", by simp⟩
  · intro r
    rw [hguard]
    intro hcontra
    exact GoResult.noConfusion hcontra

theorem claim_c6_witness :
    (("error" ≠ "ok") ∧ ("error" ≠ "ok") ∧ ((200 : Nat) = 200)) ∧
    (((∃ msg, (newsAPIpipeline ⟨200, strBytes "b"⟩
          (GoResult.ok ⟨"error", 0, []⟩)).2 = GoResult.err msg ∧
        bytesContain (strBytes "error") msg) ∧
      ∀ r, (newsAPIpipeline ⟨200, strBytes "b"⟩
          (GoResult.ok ⟨"error", 0, []⟩)).2 ≠ GoResult.ok r) ∧
    ((∃ msg, (guardianPipeline ⟨200, strBytes "b"⟩
          (GoResult.ok ⟨⟨"error", 0, 0, 0, 0, []⟩⟩)).2 = GoResult.err msg ∧
        bytesContain (strBytes "error") msg) ∧
      ∀ r, (guardianPipeline ⟨200, strBytes "b"⟩
          (GoResult.ok ⟨⟨"error", 0, 0, 0, 0, []⟩⟩)).2 ≠ GoResult.ok r)) :=
  ⟨⟨by decide, by decide, rfl⟩,
    claim_c6 ⟨200, strBytes "b"⟩ ⟨"error", 0, []⟩ ⟨⟨"error", 0, 0, 0, 0, []⟩⟩
      (by decide) (by decide) rfl⟩

/-- Claim C7: on a JSON decode failure the NewsAPI, GDELT and X clients
return (with no retry and no recovery — the result is exactly this error)
a message that embeds the body preview, and the preview of a body longer
than 500 bytes is its first 500 bytes followed by the "..." marker. -/
theorem claim_c7 (resp : HttpResponse) (e : List Nat)
    (hSC : resp.statusCode = 200) :
    (newsAPIpipeline resp (GoResult.err e)).2 =
      GoResult.err (strBytes "error parseando JSON: " ++ e ++
        strBytes ". \nRespuesta recibida (Inicio):\n" ++ previewOf resp.body) ∧
    (gdeltPipeline resp (GoResult.err e)).2 =
      GoResult.err (strBytes "error parseando JSON: " ++ e ++
        strBytes ". \nRespuesta recibida (Inicio):\n" ++ previewOf resp.body) ∧
    (xPipeline resp (GoResult.err e)).2 =
      GoResult.err (strBytes "error parseando JSON: " ++ e ++
        strBytes ". Respuesta recibida:\n" ++ previewOf resp.body) ∧
    (500 < resp.body.length →
      previewOf resp.body = resp.body.take 500 ++ strBytes "...") := by
  refine ⟨rfl, ?_, ?_, ?_⟩
  · unfold gdeltPipeline
    rw [if_neg (by omega : ¬ resp.statusCode ≠ 200)]
  · unfold xPipeline
    rw [if_neg (by omega : ¬ resp.statusCode ≠ 200)]
  · intro hlen
    unfold previewOf
    rw [if_pos hlen]

theorem claim_c7_witness :
    ((200 : Nat) = 200) ∧
    ((newsAPIpipeline ⟨200, strBytes "not json"⟩
        (GoResult.err (strBytes "invalid character"))).2 =
      GoResult.err (strBytes "error parseando JSON: " ++
        strBytes "invalid character" ++
        strBytes ". \nRespuesta recibida (Inicio):\n" ++
        previewOf (strBytes "not json")) ∧
    (gdeltPipeline ⟨200, strBytes "not json"⟩
        (GoResult.err (strBytes "invalid character"))).2 =
      GoResult.err (strBytes "error parseando JSON: " ++
        strBytes "invalid character" ++
        strBytes ". \nRespuesta recibida (Inicio):\n" ++
        previewOf (strBytes "not json")) ∧
    (xPipeline ⟨200, strBytes "not json"⟩
        (GoResult.err (strBytes "invalid character"))).2 =
      GoResult.err (strBytes "error parseando JSON: " ++
        strBytes "invalid character" ++
        strBytes ". Respuesta recibida:\n" ++
        previewOf (strBytes "not json")) ∧
    (500 < (strBytes "not json").length →
      previewOf (strBytes "not json") =
        (strBytes "not json").take 500 ++ strBytes "...")) :=
  ⟨rfl, claim_c7 ⟨200, strBytes "not json"⟩ (strBytes "invalid character") rfl⟩

/-- Claim C9: the request URL built by `BuscarArticulos` in `news_crawler.go`
is independent of the `queryRaw` argument — the `q` parameter always carries
the hard-coded phrase — so any two search phrases yield byte-for-byte the
same URL. -/
theorem claim_c9 (q1 q2 idiomasCSV fechaInicio fechaFin : String)
    (pageSize : Int) :
    newsBuildURL q1 idiomasCSV fechaInicio fechaFin pageSize =
      newsBuildURL q2 idiomasCSV fechaInicio fechaFin pageSize := rfl
